import Mathlib

/-!
# Verification of the logging façade `log/log.go`

A shallow embedding of package `log` (file `log/log.go`) and of the small part
of the Go standard library it calls into (`log/slog`, `fmt`, `runtime`,
`sync/atomic`, `time`), followed by theorems about the package's observable
behaviour.

Conventions of the embedding.

* Effects are explicit: every function that has an effect takes the `World`
  before the call and returns the `World` after it.
* A Go panic is the `Except.error` result.
* Every function that can appear on the call stack takes the stack of its
  caller (innermost frame first) and passes its own frame on top of it to its
  callees, so that `runtime.Callers` can be evaluated.
-/

namespace Log

/-! ## `log/slog`: levels, records, handlers -/

/-- Go: `type Level int` of `log/slog`. -/
abbrev Level := Int

/-- Go: `slog.LevelDebug Level = -4`. -/
def slog.LevelDebug : Level := -4

/-- Go: `slog.LevelInfo Level = 0`. -/
def slog.LevelInfo : Level := 0

/-- Go: `slog.LevelWarn Level = 4`. -/
def slog.LevelWarn : Level := 4

/-- Go: `slog.LevelError Level = 8`. -/
def slog.LevelError : Level := 8

/-- A frame of the call stack, identified by the function it belongs to.
Frames outside the package are `user pc`. -/
inductive Frame where
  | runtimeCallers
  | sloggerLog
  | sloggerMethod (name : String)
  | pkgFunc (name : String)
  | user (pc : Nat)
  deriving DecidableEq, Repr

/-- Go: `slog.Record`, restricted to the four fields `slog.NewRecord` sets.
`pc = none` is the zero program counter. -/
structure Record where
  time : Nat
  level : Level
  message : String
  pc : Option Frame
  deriving DecidableEq, Repr

/-- Go: `slog.NewRecord(t, level, msg, pc)`. -/
def slog.NewRecord (t : Nat) (level : Level) (msg : String) (pc : Option Frame) : Record :=
  { time := t, level := level, message := msg, pc := pc }

/-- Go: the interface `slog.Handler`, restricted to the two methods the package
calls. `Handle` returns `none` for a nil error and `some e` for the error `e`. -/
structure Handler where
  Enabled : Level → Bool
  Handle : Record → Option String

/-- Go: `*slog.Logger` (non-nil), which wraps a handler. -/
structure slog.Logger where
  handler : Handler

/-- Go: `(*slog.Logger).Enabled(ctx, level)`, which asks the handler. -/
def slog.Logger.Enabled (l : slog.Logger) (level : Level) : Bool :=
  l.handler.Enabled level

/-- Go: `(*slog.Logger).Handler()`. -/
def slog.Logger.Handler (l : slog.Logger) : Handler :=
  l.handler

/-- A handler of the kind `slog` builds from `HandlerOptions.Level`: a record is
enabled when its level is at least the threshold `T`; `Handle` fails with `err`. -/
def thresholdHandler (T : Level) (err : Option String) : Handler :=
  { Enabled := fun level => decide (T ≤ level), Handle := fun _ => err }

/-! ## `fmt`: operands and `Sprint` -/

/-- The dynamic values passed as `args ...interface{}` that are modelled:
strings, integers, booleans and the nil interface. -/
inductive Value where
  | str (s : String)
  | int (n : Int)
  | bool (b : Bool)
  | nil
  deriving DecidableEq, Repr

/-- Go (`fmt/print.go`, `doPrint`):
`arg != nil && reflect.TypeOf(arg).Kind() == reflect.String`. -/
def Value.isString : Value → Bool
  | .str _ => true
  | _ => false

/-- Go: `p.printArg(arg, 'v')`, the default format of an operand. -/
def Value.defaultForm : Value → String
  | .str s => s
  | .int n => toString n
  | .bool true => "true"
  | .bool false => "false"
  | .nil => "<nil>"

/-- Go (`fmt/print.go`), the loop of `doPrint`:
```go
prevString := false
for argNum, arg := range a {
    isString := arg != nil && reflect.TypeOf(arg).Kind() == reflect.String
    // Add a space between two arguments if neither is a string.
    if argNum > 0 && !isString && !prevString {
        p.buf.writeByte(' ')
    }
    p.printArg(arg, 'v')
    prevString = isString
}
```
`first` is `argNum == 0`, `buf` is the buffer written so far. -/
def doPrint (first : Bool) (prevString : Bool) (buf : String) : List Value → String
  | [] => buf
  | arg :: rest =>
    let isString := arg.isString
    let buf := if !first && !isString && !prevString then buf ++ " " else buf
    doPrint false isString (buf ++ arg.defaultForm) rest

/-- Go: `fmt.Sprint(a...)`. -/
def fmt.Sprint (a : List Value) : String :=
  doPrint true false "" a

/-! ## `runtime.Callers` -/

/-- Go: `runtime.Callers(skip, pcs[:])` with `len(pcs) = 1`, returning `pcs[0]`.
Frame 0 is `runtime.Callers` itself, frame 1 its caller; `stack` is the stack of
the caller. A `skip` that is not positive skips nothing, and `none` (the zero
program counter, `pcs[0]` left untouched) results when the stack is too short. -/
def runtime.Callers (skip : Int) (stack : List Frame) : Option Frame :=
  ((Frame.runtimeCallers :: stack).drop skip.toNat).head?

/-! ## The package: data model -/

/-- Go: `LevelTrace slog.Level = slog.LevelDebug - 4`. -/
def LevelTrace : Level := slog.LevelDebug - 4

/-- Go: `LevelFatal slog.Level = slog.LevelError + 4`. -/
def LevelFatal : Level := slog.LevelError + 4

/-- Go: `type Slogger struct { logger *slog.Logger; skip int }`. The `logger`
pointer is taken to be non-nil. -/
structure Slogger where
  logger : slog.Logger
  skip : Int

/-- One call of a method of the interface `Logger`, with its arguments. -/
inductive Call where
  | Trace (args : List Value)
  | Tracef (format : String) (args : List Value)
  | Debug (args : List Value)
  | Debugf (format : String) (args : List Value)
  | Info (args : List Value)
  | Infof (format : String) (args : List Value)
  | Warn (args : List Value)
  | Warnf (format : String) (args : List Value)
  | Error (args : List Value)
  | Errorf (format : String) (args : List Value)
  | Fatal (args : List Value)
  | Fatalf (format : String) (args : List Value)
  deriving DecidableEq, Repr

/-- The name of the method a call is for. -/
def Call.name : Call → String
  | .Trace _ => "Trace"
  | .Tracef _ _ => "Tracef"
  | .Debug _ => "Debug"
  | .Debugf _ _ => "Debugf"
  | .Info _ => "Info"
  | .Infof _ _ => "Infof"
  | .Warn _ => "Warn"
  | .Warnf _ _ => "Warnf"
  | .Error _ => "Error"
  | .Errorf _ _ => "Errorf"
  | .Fatal _ => "Fatal"
  | .Fatalf _ _ => "Fatalf"

/-- Go: a value of the interface type `Logger`, by dynamic type.
* `nil`: the nil interface;
* `sloggerPtr addr pointee`: a non-nil `*Slogger` at address `addr`. No function
  of the package writes through a `*Slogger`, so a pointer carries the struct it
  points to;
* `slogger v`: a `Slogger` struct value (the methods have value receivers, so
  `Slogger` implements `Logger` as well as `*Slogger` does);
* `custom typ inst`: the instance `inst` of any other implementing type `typ`. -/
inductive Logger where
  | nil
  | sloggerPtr (addr : Nat) (pointee : Slogger)
  | slogger (v : Slogger)
  | custom (typ : Nat) (inst : Nat)

/-- The dynamic (concrete) type of an interface value. -/
inductive DynType where
  | sloggerPtr
  | slogger
  | custom (typ : Nat)
  deriving DecidableEq, Repr

/-- The dynamic type of a `Logger`; `none` for the nil interface. -/
def Logger.dynType : Logger → Option DynType
  | .nil => none
  | .sloggerPtr _ _ => some .sloggerPtr
  | .slogger _ => some .slogger
  | .custom typ _ => some (.custom typ)

/-- Go: the type assertion `sl, ok := l.(Slogger)`; `none` stands for
`ok == false`. Only the dynamic type `Slogger` matches, `*Slogger` does not. -/
def Logger.assertSlogger : Logger → Option Slogger
  | .slogger v => some v
  | _ => none

/-- The skip count of a logger built from the adapter type. -/
def Logger.skip? : Logger → Option Int
  | .sloggerPtr _ p => some p.skip
  | .slogger v => some v.skip
  | _ => none

/-- The panics that can occur. -/
inductive Panic where
  | storeNil
  | storeInconsistentType
  | nilDereference
  deriving DecidableEq, Repr

/-- Go: `sync/atomic.Value`; `stored = none` until the first `Store`. -/
structure AtomicValue where
  stored : Option Logger

/-- Go: `(*atomic.Value).Load()`; `none` is the nil result. -/
def AtomicValue.Load (v : AtomicValue) : Option Logger :=
  v.stored

/-- Go: `(*atomic.Value).Store(val)`. "All calls to Store for a given Value must
use values of the same concrete type. Store of an inconsistent type panics, as
does Store(nil)." -/
def AtomicValue.Store (v : AtomicValue) (val : Logger) : Except Panic AtomicValue :=
  match val.dynType with
  | none => .error .storeNil
  | some t =>
    match v.stored with
    | none => .ok { stored := some val }
    | some old =>
      if old.dynType = some t then .ok { stored := some val }
      else .error .storeInconsistentType

/-- What the world outside the adapter observes, in order: a record handed to a
handler's `Handle` together with the error `Handle` returned, or a call received
by a `Logger` implementation that is not the adapter. -/
inductive Event where
  | handle (r : Record) (err : Option String)
  | custom (typ : Nat) (inst : Nat) (call : Call)
  deriving DecidableEq, Repr

/-- The state of the process.
* `defaultLogger`: Go `var defaultLogger atomic.Value`;
* `slogDefault`: what `slog.Default()` returns;
* `now`: what `time.Now()` returns;
* `nextAddr`: the next address the allocator hands out;
* `events`: the observations made so far. -/
structure World where
  defaultLogger : AtomicValue
  slogDefault : slog.Logger
  now : Nat
  nextAddr : Nat
  events : List Event

/-- The process before any package initialisation has run. -/
def World.start (backend : slog.Logger) (now : Nat) : World :=
  { defaultLogger := { stored := none }, slogDefault := backend, now := now,
    nextAddr := 1, events := [] }

/-- Go: `slog.Default()`. -/
def slog.Default (w : World) : slog.Logger :=
  w.slogDefault

/-- Go: `time.Now()`. -/
def time.Now (w : World) : Nat :=
  w.now

/-! ## The package: operations -/

/- Go: `fmt.Sprintf`, taken as a parameter of the development: every theorem
holds whatever `fmt.Sprintf` computes. -/
variable (Sprintf : String → List Value → String)

/-- Go:
```go
func init() {
    // Default logger has an extra skip to account for the log function
    defaultLogger.Store(&Slogger{
        logger: slog.Default(),
        skip:   4,
    })
}
``` -/
def init (w : World) : Except Panic World :=
  let l := Logger.sloggerPtr w.nextAddr { logger := slog.Default w, skip := 4 }
  match w.defaultLogger.Store l with
  | .error p => .error p
  | .ok v => .ok { w with defaultLogger := v, nextAddr := w.nextAddr + 1 }

/-- Go:
```go
func SetDefault(l Logger) {
    if sl, ok := l.(Slogger); ok {
        sl.skip = 4
    }
    defaultLogger.Store(l)
}
```
`sl` is a variable local to the `if` statement that holds a copy of the struct
in `l`; the assignment changes that copy, and `l` is what is stored. -/
def SetDefault (l : Logger) (w : World) : Except Panic World :=
  let _sl : Option Slogger := (l.assertSlogger).map fun sl => { sl with skip := 4 }
  match w.defaultLogger.Store l with
  | .error p => .error p
  | .ok v => .ok { w with defaultLogger := v }

/-- Go:
```go
func New() Logger {
    return &Slogger{
        logger: slog.Default(),
        skip:   3,
    }
}
``` -/
def New (w : World) : Logger × World :=
  (Logger.sloggerPtr w.nextAddr { logger := slog.Default w, skip := 3 },
   { w with nextAddr := w.nextAddr + 1 })

/-- Go:
```go
func (l Slogger) log(level slog.Level, line string) {
    if !l.logger.Enabled(context.Background(), level) {
        return
    }
    var pcs [1]uintptr
    runtime.Callers(l.skip, pcs[:]) // Skip [Caller, log, XXXf]
    r := slog.NewRecord(time.Now(), level, line, pcs[0])
    _ = l.logger.Handler().Handle(context.Background(), r)
}
```
`stack` is the stack of the caller of `log`. -/
def Slogger.log (l : Slogger) (level : Level) (line : String) (stack : List Frame)
    (w : World) : World :=
  if !l.logger.Enabled level then w
  else
    let pcs0 := runtime.Callers l.skip (Frame.sloggerLog :: stack)
    let r := slog.NewRecord (time.Now w) level line pcs0
    let err := l.logger.Handler.Handle r
    { w with events := w.events ++ [Event.handle r err] }

/-- Go: `func (l Slogger) Trace(args ...interface{}) { l.log(slog.LevelDebug, fmt.Sprint(args...)) }`. -/
def Slogger.Trace (l : Slogger) (args : List Value) (stack : List Frame) (w : World) : World :=
  l.log slog.LevelDebug (fmt.Sprint args) (Frame.sloggerMethod "Trace" :: stack) w

/-- Go: `func (l Slogger) Tracef(format string, args ...interface{}) { l.log(slog.LevelDebug, fmt.Sprintf(format, args...)) }`. -/
def Slogger.Tracef (l : Slogger) (format : String) (args : List Value) (stack : List Frame)
    (w : World) : World :=
  l.log slog.LevelDebug (Sprintf format args) (Frame.sloggerMethod "Tracef" :: stack) w

/-- Go: `func (l Slogger) Debug(args ...interface{}) { l.log(slog.LevelDebug, fmt.Sprint(args...)) }`. -/
def Slogger.Debug (l : Slogger) (args : List Value) (stack : List Frame) (w : World) : World :=
  l.log slog.LevelDebug (fmt.Sprint args) (Frame.sloggerMethod "Debug" :: stack) w

/-- Go: `func (l Slogger) Debugf(format string, args ...interface{}) { l.log(slog.LevelDebug, fmt.Sprintf(format, args...)) }`. -/
def Slogger.Debugf (l : Slogger) (format : String) (args : List Value) (stack : List Frame)
    (w : World) : World :=
  l.log slog.LevelDebug (Sprintf format args) (Frame.sloggerMethod "Debugf" :: stack) w

/-- Go: `func (l Slogger) Info(args ...interface{}) { l.log(slog.LevelInfo, fmt.Sprint(args...)) }`. -/
def Slogger.Info (l : Slogger) (args : List Value) (stack : List Frame) (w : World) : World :=
  l.log slog.LevelInfo (fmt.Sprint args) (Frame.sloggerMethod "Info" :: stack) w

/-- Go: `func (l Slogger) Infof(format string, args ...interface{}) { l.log(slog.LevelInfo, fmt.Sprintf(format, args...)) }`. -/
def Slogger.Infof (l : Slogger) (format : String) (args : List Value) (stack : List Frame)
    (w : World) : World :=
  l.log slog.LevelInfo (Sprintf format args) (Frame.sloggerMethod "Infof" :: stack) w

/-- Go: `func (l Slogger) Warn(args ...interface{}) { l.log(slog.LevelWarn, fmt.Sprint(args...)) }`. -/
def Slogger.Warn (l : Slogger) (args : List Value) (stack : List Frame) (w : World) : World :=
  l.log slog.LevelWarn (fmt.Sprint args) (Frame.sloggerMethod "Warn" :: stack) w

/-- Go: `func (l Slogger) Warnf(format string, args ...interface{}) { l.log(slog.LevelWarn, fmt.Sprintf(format, args...)) }`. -/
def Slogger.Warnf (l : Slogger) (format : String) (args : List Value) (stack : List Frame)
    (w : World) : World :=
  l.log slog.LevelWarn (Sprintf format args) (Frame.sloggerMethod "Warnf" :: stack) w

/-- Go: `func (l Slogger) Error(args ...interface{}) { l.log(slog.LevelError, fmt.Sprint(args...)) }`. -/
def Slogger.Error (l : Slogger) (args : List Value) (stack : List Frame) (w : World) : World :=
  l.log slog.LevelError (fmt.Sprint args) (Frame.sloggerMethod "Error" :: stack) w

/-- Go: `func (l Slogger) Errorf(format string, args ...interface{}) { l.log(slog.LevelError, fmt.Sprintf(format, args...)) }`. -/
def Slogger.Errorf (l : Slogger) (format : String) (args : List Value) (stack : List Frame)
    (w : World) : World :=
  l.log slog.LevelError (Sprintf format args) (Frame.sloggerMethod "Errorf" :: stack) w

/-- Go: `func (l Slogger) Fatal(args ...interface{}) { l.log(LevelFatal, fmt.Sprint(args...)) }`. -/
def Slogger.Fatal (l : Slogger) (args : List Value) (stack : List Frame) (w : World) : World :=
  l.log LevelFatal (fmt.Sprint args) (Frame.sloggerMethod "Fatal" :: stack) w

/-- Go: `func (l Slogger) Fatalf(format string, args ...interface{}) { l.log(LevelFatal, fmt.Sprintf(format, args...)) }`. -/
def Slogger.Fatalf (l : Slogger) (format : String) (args : List Value) (stack : List Frame)
    (w : World) : World :=
  l.log LevelFatal (Sprintf format args) (Frame.sloggerMethod "Fatalf" :: stack) w

/-- The method of `Slogger` a call selects. -/
def Slogger.invoke (l : Slogger) (c : Call) (stack : List Frame) (w : World) : World :=
  match c with
  | .Trace args => l.Trace args stack w
  | .Tracef format args => l.Tracef Sprintf format args stack w
  | .Debug args => l.Debug args stack w
  | .Debugf format args => l.Debugf Sprintf format args stack w
  | .Info args => l.Info args stack w
  | .Infof format args => l.Infof Sprintf format args stack w
  | .Warn args => l.Warn args stack w
  | .Warnf format args => l.Warnf Sprintf format args stack w
  | .Error args => l.Error args stack w
  | .Errorf format args => l.Errorf Sprintf format args stack w
  | .Fatal args => l.Fatal args stack w
  | .Fatalf format args => l.Fatalf Sprintf format args stack w

/-- Go: a method call `l.M(...)` on a value `l` of interface type `Logger`,
dispatched on the dynamic type. A call on the nil interface panics; a `*Slogger`
is dereferenced and the value-receiver method runs on the copy; a call on another
implementation is recorded as an event. -/
def Logger.invoke (l : Logger) (c : Call) (stack : List Frame) (w : World) :
    Except Panic World :=
  match l with
  | .nil => .error .nilDereference
  | .sloggerPtr _ pointee => .ok (pointee.invoke Sprintf c stack w)
  | .slogger v => .ok (v.invoke Sprintf c stack w)
  | .custom typ inst => .ok { w with events := w.events ++ [Event.custom typ inst c] }

/-- Modelled from the spec: `Default()`, which the package-level functions call
and whose declaration is not in `log/log.go`. "`Default() -> Logger`: returns the
currently installed default logger." It loads the holder; an empty holder gives
the nil interface. -/
def Default (w : World) : Logger :=
  match w.defaultLogger.Load with
  | some l => l
  | none => Logger.nil

/-- Go: `func Trace(args ...interface{}) { Default().Trace(args...) }`. -/
def Trace (args : List Value) (stack : List Frame) (w : World) : Except Panic World :=
  (Default w).invoke Sprintf (.Trace args) (Frame.pkgFunc "Trace" :: stack) w

/-- Go: `func Tracef(format string, args ...interface{}) { Default().Tracef(format, args...) }`. -/
def Tracef (format : String) (args : List Value) (stack : List Frame) (w : World) :
    Except Panic World :=
  (Default w).invoke Sprintf (.Tracef format args) (Frame.pkgFunc "Tracef" :: stack) w

/-- Go: `func Debug(args ...interface{}) { Default().Debug(args...) }`. -/
def Debug (args : List Value) (stack : List Frame) (w : World) : Except Panic World :=
  (Default w).invoke Sprintf (.Debug args) (Frame.pkgFunc "Debug" :: stack) w

/-- Go: `func Debugf(format string, args ...interface{}) { Default().Debugf(format, args...) }`. -/
def Debugf (format : String) (args : List Value) (stack : List Frame) (w : World) :
    Except Panic World :=
  (Default w).invoke Sprintf (.Debugf format args) (Frame.pkgFunc "Debugf" :: stack) w

/-- Go: `func Info(args ...interface{}) { Default().Info(args...) }`. -/
def Info (args : List Value) (stack : List Frame) (w : World) : Except Panic World :=
  (Default w).invoke Sprintf (.Info args) (Frame.pkgFunc "Info" :: stack) w

/-- Go: `func Infof(format string, args ...interface{}) { Default().Infof(format, args...) }`. -/
def Infof (format : String) (args : List Value) (stack : List Frame) (w : World) :
    Except Panic World :=
  (Default w).invoke Sprintf (.Infof format args) (Frame.pkgFunc "Infof" :: stack) w

/-- Go: `func Warn(args ...interface{}) { Default().Warn(args...) }`. -/
def Warn (args : List Value) (stack : List Frame) (w : World) : Except Panic World :=
  (Default w).invoke Sprintf (.Warn args) (Frame.pkgFunc "Warn" :: stack) w

/-- Go: `func Warnf(format string, args ...interface{}) { Default().Warnf(format, args...) }`. -/
def Warnf (format : String) (args : List Value) (stack : List Frame) (w : World) :
    Except Panic World :=
  (Default w).invoke Sprintf (.Warnf format args) (Frame.pkgFunc "Warnf" :: stack) w

/-- Go: `func Error(args ...interface{}) { Default().Error(args...) }`. -/
def Error (args : List Value) (stack : List Frame) (w : World) : Except Panic World :=
  (Default w).invoke Sprintf (.Error args) (Frame.pkgFunc "Error" :: stack) w

/-- Go: `func Errorf(format string, args ...interface{}) { Default().Errorf(format, args...) }`. -/
def Errorf (format : String) (args : List Value) (stack : List Frame) (w : World) :
    Except Panic World :=
  (Default w).invoke Sprintf (.Errorf format args) (Frame.pkgFunc "Errorf" :: stack) w

/-- Go: `func Fatal(args ...interface{}) { Default().Fatal(args...) }`. -/
def Fatal (args : List Value) (stack : List Frame) (w : World) : Except Panic World :=
  (Default w).invoke Sprintf (.Fatal args) (Frame.pkgFunc "Fatal" :: stack) w

/-- Go: `func Fatalf(format string, args ...interface{}) { Default().Fatalf(format, args...) }`. -/
def Fatalf (format : String) (args : List Value) (stack : List Frame) (w : World) :
    Except Panic World :=
  (Default w).invoke Sprintf (.Fatalf format args) (Frame.pkgFunc "Fatalf" :: stack) w

/-- The package-level function a call selects. -/
def pkgInvoke (c : Call) (stack : List Frame) (w : World) : Except Panic World :=
  match c with
  | .Trace args => Trace Sprintf args stack w
  | .Tracef format args => Tracef Sprintf format args stack w
  | .Debug args => Debug Sprintf args stack w
  | .Debugf format args => Debugf Sprintf format args stack w
  | .Info args => Info Sprintf args stack w
  | .Infof format args => Infof Sprintf format args stack w
  | .Warn args => Warn Sprintf args stack w
  | .Warnf format args => Warnf Sprintf format args stack w
  | .Error args => Error Sprintf args stack w
  | .Errorf format args => Errorf Sprintf format args stack w
  | .Fatal args => Fatal Sprintf args stack w
  | .Fatalf format args => Fatalf Sprintf format args stack w

/-! ## Definitions used to state the properties -/

/-- The severity a method is named for: `Trace`/`Tracef` for the Trace level
`LevelTrace`, `Debug`/`Debugf` for `slog.LevelDebug`, and so on up to
`Fatal`/`Fatalf` for `LevelFatal`. -/
def Call.severity : Call → Level
  | .Trace _ | .Tracef _ _ => LevelTrace
  | .Debug _ | .Debugf _ _ => slog.LevelDebug
  | .Info _ | .Infof _ _ => slog.LevelInfo
  | .Warn _ | .Warnf _ _ => slog.LevelWarn
  | .Error _ | .Errorf _ _ => slog.LevelError
  | .Fatal _ | .Fatalf _ _ => LevelFatal

/-- Whether the call is for `Trace` or `Tracef`. -/
def Call.isTrace : Call → Bool
  | .Trace _ | .Tracef _ _ => true
  | _ => false

/-- Whether the call is for a plain method (`Trace`, `Debug`, ...) rather than a
formatted one (`Tracef`, `Debugf`, ...). -/
def Call.isPlain : Call → Bool
  | .Trace _ | .Debug _ | .Info _ | .Warn _ | .Error _ | .Fatal _ => true
  | _ => false

/-- The argument sequence of a call. -/
def Call.args : Call → List Value
  | .Trace a | .Debug a | .Info a | .Warn a | .Error a | .Fatal a => a
  | .Tracef _ a | .Debugf _ a | .Infof _ a | .Warnf _ a | .Errorf _ a | .Fatalf _ a => a

/-- The message of a call: `fmt.Sprint(args...)` for a plain method,
`fmt.Sprintf(format, args...)` for a formatted one. -/
def Call.message : Call → String
  | .Trace a | .Debug a | .Info a | .Warn a | .Error a | .Fatal a => fmt.Sprint a
  | .Tracef f a | .Debugf f a | .Infof f a | .Warnf f a | .Errorf f a | .Fatalf f a =>
    Sprintf f a

/-- The record a call of method `c` on the adapter `l` builds when the call is
made with caller stack `stack` in world `w`, at level `level`. -/
def recordOf (l : Slogger) (c : Call) (level : Level) (stack : List Frame) (w : World) :
    Record :=
  { time := time.Now w, level := level, message := c.message Sprintf,
    pc := runtime.Callers l.skip (Frame.sloggerLog :: Frame.sloggerMethod c.name :: stack) }

/-- The concatenation of the default forms of the operands, with one space
between two adjacent operands when neither of them is a string. -/
def joinOperands : List Value → String
  | [] => ""
  | [a] => a.defaultForm
  | a :: b :: rest =>
    a.defaultForm ++ ((if !a.isString && !b.isString then " " else "") ++
      joinOperands (b :: rest))

/-- The concatenation of the default forms of the operands with no separator. -/
def concatOperands : List Value → String
  | [] => ""
  | x :: rest => x.defaultForm ++ concatOperands rest

/-- The package-level functions as the specification words them: "fetch the
current default logger and invoke the corresponding method on it with the given
arguments, unmodified". -/
def delegateSpec (c : Call) (stack : List Frame) (w : World) : Except Panic World :=
  match w.defaultLogger.stored with
  | none => .error .nilDereference
  | some l => l.invoke Sprintf c (Frame.pkgFunc c.name :: stack) w

/-- An event with the error returned by `Handle` forgotten. -/
def Event.forgetErr : Event → Event
  | .handle r _ => .handle r none
  | e => e

/-- A world with the errors returned by `Handle` forgotten: what remains is what
the caller of a logging function can observe. -/
def World.forgetErr (w : World) : World :=
  { w with events := w.events.map Event.forgetErr }

/-- The number of times a handler's `Handle` was invoked. -/
def handleCount (es : List Event) : Nat :=
  (es.filter fun e => match e with
    | .handle _ _ => true
    | _ => false).length

/-- A backend that records every record at or above `LevelTrace` and never fails. -/
def recorder : slog.Logger :=
  { handler := thresholdHandler LevelTrace none }

/-- The type name `fmt` prints for an operand. -/
def Value.typeName : Value → String
  | .str _ => "string"
  | .int _ => "int"
  | .bool _ => "bool"
  | .nil => "<nil>"

/-- Go: `p.printArg(arg, verb)` for the verbs `v`, `d`, `s` and `t`; an operand
that does not fit the verb prints as `%!verb(type=value)`. -/
def printArg (arg : Value) (verb : Char) : String :=
  match arg, verb with
  | a, 'v' => a.defaultForm
  | .int n, 'd' => toString n
  | .str s, 's' => s
  | .bool b, 't' => (Value.bool b).defaultForm
  | .nil, c => "%!" ++ c.toString ++ "(<nil>)"
  | a, c => "%!" ++ c.toString ++ "(" ++ a.typeName ++ "=" ++ a.defaultForm ++ ")"

/-- A model of `fmt.Sprintf` on the formats whose directives are `%v`, `%d`,
`%s`, `%t` and `%%`, without flags, width, precision or argument index. It
instantiates the parameter `Sprintf` in concrete scenarios. -/
def doPrintf : List Char → List Value → String → String
  | [], [], buf => buf
  | [], a :: rest, buf =>
    buf ++ "%!(EXTRA " ++
      ", ".intercalate ((a :: rest).map fun x =>
        if x = Value.nil then "<nil>" else x.typeName ++ "=" ++ x.defaultForm) ++ ")"
  | ['%'], a, buf => doPrintf [] a (buf ++ "%!(NOVERB)")
  | '%' :: '%' :: fs, a, buf => doPrintf fs a (buf ++ "%")
  | '%' :: verb :: fs, [], buf => doPrintf fs [] (buf ++ "%!" ++ verb.toString ++ "(MISSING)")
  | '%' :: verb :: fs, x :: rest, buf => doPrintf fs rest (buf ++ printArg x verb)
  | ch :: fs, a, buf => doPrintf fs a (buf.push ch)

/-- The model `doPrintf` as a function of the format string and the operands. -/
def sprintfModel (format : String) (a : List Value) : String :=
  doPrintf format.toList a ""

/-- Sequencing of two steps, the second of which runs when the first did not
panic. -/
def andThen (r : Except Panic World) (f : World → Except Panic World) : Except Panic World :=
  match r with
  | .error p => .error p
  | .ok w => f w

/-- The events of the world a run ends in, when it does not panic. -/
def eventsOf (r : Except Panic World) : Option (List Event) :=
  match r with
  | .error _ => none
  | .ok w => some w.events

/-- The skip count of the logger the holder `defaultLogger` contains after a
run, when the run does not panic and that logger is built from the adapter type. -/
def defaultSkipOf (r : Except Panic World) : Option Int :=
  match r with
  | .error _ => none
  | .ok w => w.defaultLogger.Load.bind Logger.skip?

/-! ## Lemmas about the embedding -/

/-- The level a method passes to `log`: `slog.LevelDebug` for `Trace` and
`Tracef`, the severity the method is named for otherwise. -/
theorem Slogger.invoke_eq_log (l : Slogger) (c : Call) (stack : List Frame) (w : World) :
    l.invoke Sprintf c stack w =
      l.log (if c.isTrace then slog.LevelDebug else c.severity) (c.message Sprintf)
        (Frame.sloggerMethod c.name :: stack) w := by
  cases c <;> rfl

/-- A call of `log` at an enabled level appends exactly one `Handle` event. -/
theorem Slogger.log_enabled (l : Slogger) (level : Level) (line : String)
    (stack : List Frame) (w : World) (h : l.logger.Enabled level = true) :
    l.log level line stack w =
      { w with events := w.events ++
          [Event.handle
            (slog.NewRecord (time.Now w) level line
              (runtime.Callers l.skip (Frame.sloggerLog :: stack)))
            (l.logger.Handler.Handle
              (slog.NewRecord (time.Now w) level line
                (runtime.Callers l.skip (Frame.sloggerLog :: stack))))] } := by
  simp [Slogger.log, h]

/-- A call of `log` at a level that is not enabled changes nothing. -/
theorem Slogger.log_disabled (l : Slogger) (level : Level) (line : String)
    (stack : List Frame) (w : World) (h : l.logger.Enabled level = false) :
    l.log level line stack w = w := by
  simp [Slogger.log, h]

/-- The buffer `doPrint` starts from is a prefix of its result. -/
theorem doPrint_buf (first prevString : Bool) (buf : String) (a : List Value) :
    doPrint first prevString buf a = buf ++ doPrint first prevString "" a := by
  induction a generalizing first prevString buf with
  | nil => simp [doPrint]
  | cons x rest ih =>
    simp only [doPrint]
    rw [ih, ih false x.isString (_ ++ x.defaultForm)]
    split <;> simp [String.append_assoc]

/-- The loop of `doPrint` writes the operands joined as `joinOperands` says,
after the separator due before the first of them. -/
theorem doPrint_eq_joinOperands (first prevString : Bool) (x : Value) (rest : List Value) :
    doPrint first prevString "" (x :: rest) =
      (if !first && !x.isString && !prevString then " " else "") ++
        joinOperands (x :: rest) := by
  induction rest generalizing first prevString x with
  | nil =>
    simp only [doPrint, joinOperands]
    split <;> simp
  | cons y rest ih =>
    rw [doPrint, doPrint_buf, ih false x.isString y, joinOperands]
    cases hx : x.isString <;> cases hy : y.isString <;> cases first <;> cases prevString <;>
      simp [String.append_assoc]

/-- The result of `fmt.Sprint` joins the default forms of its operands, with a space between
two adjacent operands when neither is a string. -/
theorem Sprint_eq_joinOperands (a : List Value) : fmt.Sprint a = joinOperands a := by
  cases a with
  | nil => rfl
  | cons x rest => simp [fmt.Sprint, doPrint_eq_joinOperands]

/-- When every operand is a string, `fmt.Sprint` is the concatenation with no
separator. -/
theorem Sprint_strings (a : List Value) (h : ∀ x ∈ a, x.isString = true) :
    fmt.Sprint a = concatOperands a := by
  rw [Sprint_eq_joinOperands]
  induction a with
  | nil => rfl
  | cons x rest ih =>
    have ih := ih (fun y hy => h y (List.mem_cons_of_mem _ hy))
    cases rest with
    | nil => simp [joinOperands, concatOperands]
    | cons y rest =>
      have hx : x.isString = true := h x (List.mem_cons_self _ _)
      rw [joinOperands, ih]
      simp [hx, concatOperands]

/-- The model of `fmt.Sprint` on the operand lists the specification names. -/
theorem Sprint_examples :
    fmt.Sprint [.str "a", .str "b"] = "ab" ∧ fmt.Sprint [.int 1, .int 2] = "1 2" ∧
      fmt.Sprint [.int 1, .str "a", .int (-2), .nil, .bool true] = "1a-2 <nil> true" := by
  decide

/-- The model of `fmt.Sprintf` on two formats. -/
theorem sprintfModel_examples :
    sprintfModel "x=%d" [.int 5] = "x=5" ∧
      sprintfModel "x=%d%%" [.str "a", .nil] = "x=%!d(string=a)%%!(EXTRA <nil>)" := by
  decide

/-- Whenever the store succeeds, `SetDefault` has stored its argument as it is. -/
theorem SetDefault_stores_argument (l : Logger) (w w' : World)
    (h : SetDefault l w = .ok w') : w'.defaultLogger.stored = some l := by
  unfold SetDefault AtomicValue.Store at h
  cases hl : l.dynType with
  | none => simp [hl] at h
  | some t =>
    cases hs : w.defaultLogger.stored with
    | none =>
      simp [hl, hs] at h
      rw [← h]
    | some old =>
      by_cases ht : old.dynType = some t
      · simp [hl, hs, ht] at h
        rw [← h]
      · simp [hl, hs, ht] at h

/-- Once the holder contains a `*Slogger`, `SetDefault` panics on every argument
of another dynamic type and on nil. -/
theorem SetDefault_panics_of_other_type (l old : Logger) (w : World)
    (hold : w.defaultLogger.stored = some old) (ht : old.dynType = some .sloggerPtr)
    (hl : l.dynType ≠ some .sloggerPtr) :
    SetDefault l w = .error .storeNil ∨ SetDefault l w = .error .storeInconsistentType := by
  unfold SetDefault AtomicValue.Store
  cases hd : l.dynType with
  | none => simp
  | some t =>
    have : t ≠ .sloggerPtr := fun h => hl (by rw [hd, h])
    simp [hold, ht, this.symm]

/-- Once the holder contains a `*Slogger`, it contains one after every
`SetDefault` that returns. -/
theorem SetDefault_keeps_pointer_type (l old : Logger) (w w' : World)
    (hold : w.defaultLogger.stored = some old) (ht : old.dynType = some .sloggerPtr)
    (h : SetDefault l w = .ok w') :
    ∃ l', w'.defaultLogger.stored = some l' ∧ l'.dynType = some .sloggerPtr := by
  refine ⟨l, SetDefault_stores_argument l w w' h, ?_⟩
  by_contra hne
  rcases SetDefault_panics_of_other_type l old w hold ht hne with h' | h' <;>
    rw [h'] at h <;> cases h

/-! ## The claims -/

/-- C1 (fails on the code). After `init`, `SetDefault(New())` leaves the default
logger with skip count 3, not 4, and `SetDefault` of any `*Slogger` with skip
count `k` leaves the default logger with skip count `k`. Where the type
assertion succeeds, on a `Slogger` struct value, the stored logger keeps its
skip count `k` as well (on a holder that is still empty; after `init` the store
panics): the assignment `sl.skip = 4` never reaches the stored logger. After
`SetDefault(New())` a package-level call reports the frame of the package-level
function as the source location. -/
theorem SetDefault_does_not_set_skip (b : slog.Logger) (now addr pc : Nat) (s : Slogger)
    (args : List Value) :
    defaultSkipOf (andThen (init (World.start b now))
        fun w => SetDefault (New w).1 (New w).2) = some 3 ∧
      defaultSkipOf (andThen (init (World.start b now))
        fun w => SetDefault (New w).1 (New w).2) ≠ some 4 ∧
      defaultSkipOf (andThen (init (World.start b now))
        (SetDefault (.sloggerPtr addr s))) = some s.skip ∧
      defaultSkipOf (SetDefault (.slogger s) (World.start b now)) = some s.skip ∧
      andThen (init (World.start b now)) (SetDefault (.slogger s)) =
        .error .storeInconsistentType ∧
      eventsOf (andThen (andThen (init (World.start recorder now))
          fun w => SetDefault (New w).1 (New w).2)
          (Info Sprintf args [.user pc])) =
        some [Event.handle
          ⟨now, slog.LevelInfo, fmt.Sprint args, some (Frame.pkgFunc "Info")⟩ none] := by
  have h3 : defaultSkipOf (andThen (init (World.start b now))
      fun w => SetDefault (New w).1 (New w).2) = some 3 := rfl
  refine ⟨h3, ?_, rfl, rfl, rfl, rfl⟩
  rw [h3]
  decide

/-- C2 (fails on the code). On a backend that enables the Trace level,
`Slogger.Trace` and `Slogger.Tracef` hand over a record whose level is
`slog.LevelDebug`, which is not `LevelTrace`. -/
theorem Trace_emits_at_LevelDebug (err : Option String) (skip : Int) (format : String)
    (args : List Value) (stack : List Frame) (w : World) :
    (Slogger.Trace ⟨⟨thresholdHandler LevelTrace err⟩, skip⟩ args stack w).events =
        w.events ++ [Event.handle
          ⟨time.Now w, slog.LevelDebug, fmt.Sprint args,
            runtime.Callers skip (.sloggerLog :: .sloggerMethod "Trace" :: stack)⟩ err] ∧
      (Slogger.Tracef Sprintf ⟨⟨thresholdHandler LevelTrace err⟩, skip⟩ format args stack
          w).events =
        w.events ++ [Event.handle
          ⟨time.Now w, slog.LevelDebug, Sprintf format args,
            runtime.Callers skip (.sloggerLog :: .sloggerMethod "Tracef" :: stack)⟩ err] ∧
      slog.LevelDebug ≠ LevelTrace := by
  refine ⟨rfl, rfl, by decide⟩

/-- C3 (as stated, fails). `Warn(1, 2)` emits the message `1 2`, while the
concatenation of the default forms with no separator is `12`. -/
theorem Warn_two_ints_message :
    (Slogger.Warn ⟨recorder, 3⟩ [.int 1, .int 2] [.user 7] (World.start recorder 0)).events =
        [Event.handle ⟨0, slog.LevelWarn, "1 2", some (.user 7)⟩ none] ∧
      concatOperands [.int 1, .int 2] = "12" ∧
      (Slogger.Warn ⟨recorder, 3⟩ [.int 1, .int 2] [.user 7] (World.start recorder 0)).events ≠
        [Event.handle ⟨0, slog.LevelWarn, concatOperands [.int 1, .int 2], some (.user 7)⟩
          none] := by
  decide

/-- C3 (amended). For every plain method and every argument sequence, the call
emits no record or exactly one, and the message of the emitted record is the
concatenation of the default forms of the arguments with one space between two
adjacent arguments when neither of them is a string. -/
theorem plain_message_is_joinOperands (l : Slogger) (c : Call) (stack : List Frame)
    (w : World) (hplain : c.isPlain = true) :
    (l.invoke Sprintf c stack w).events = w.events ∨
      ∃ r err, (l.invoke Sprintf c stack w).events = w.events ++ [Event.handle r err] ∧
        r.message = joinOperands c.args := by
  have hmsg : c.message Sprintf = joinOperands c.args := by
    cases c <;> simp [Call.isPlain] at hplain <;>
      simp [Call.message, Call.args, Sprint_eq_joinOperands]
  rw [Slogger.invoke_eq_log]
  cases hen : l.logger.Enabled (if c.isTrace then slog.LevelDebug else c.severity) with
  | false => exact Or.inl (by rw [Slogger.log_disabled _ _ _ _ _ hen])
  | true =>
    refine Or.inr ⟨_, _, by rw [Slogger.log_enabled _ _ _ _ _ hen], ?_⟩
    simp [slog.NewRecord, hmsg]

/-- C3 (amended), at `Warn("a", "b")` on a recording backend: one record, with
message `ab`. -/
theorem plain_message_is_joinOperands_witness :
    (Call.Warn [.str "a", .str "b"]).isPlain = true ∧
      ((Slogger.invoke sprintfModel ⟨recorder, 3⟩ (.Warn [.str "a", .str "b"]) [.user 7]
          (World.start recorder 0)).events = (World.start recorder 0).events ∨
        ∃ r err, (Slogger.invoke sprintfModel ⟨recorder, 3⟩ (.Warn [.str "a", .str "b"])
            [.user 7] (World.start recorder 0)).events =
              (World.start recorder 0).events ++ [Event.handle r err] ∧
          r.message = joinOperands (Call.Warn [.str "a", .str "b"]).args) :=
  ⟨rfl, plain_message_is_joinOperands sprintfModel ⟨recorder, 3⟩ (.Warn [.str "a", .str "b"])
    [.user 7] (World.start recorder 0) rfl⟩

/-- C4 (fails on the code). With the threshold at `slog.LevelDebug`, the Trace
level is below the threshold, and `Slogger.Trace` and `Slogger.Tracef` still
invoke the handler once each. -/
theorem Trace_dispatches_below_threshold (err : Option String) (skip : Int)
    (format : String) (args : List Value) (stack : List Frame) (w : World) :
    (Call.Trace args).severity < slog.LevelDebug ∧
      (Call.Tracef format args).severity < slog.LevelDebug ∧
      handleCount (Slogger.Trace ⟨⟨thresholdHandler slog.LevelDebug err⟩, skip⟩ args stack
        w).events = handleCount w.events + 1 ∧
      handleCount (Slogger.Tracef Sprintf ⟨⟨thresholdHandler slog.LevelDebug err⟩, skip⟩
        format args stack w).events = handleCount w.events + 1 := by
  have hlt : LevelTrace < slog.LevelDebug := by decide
  refine ⟨hlt, hlt, ?_, ?_⟩
  · have h : (Slogger.Trace ⟨⟨thresholdHandler slog.LevelDebug err⟩, skip⟩ args stack
        w).events = w.events ++ [Event.handle
          ⟨time.Now w, slog.LevelDebug, fmt.Sprint args,
            runtime.Callers skip (.sloggerLog :: .sloggerMethod "Trace" :: stack)⟩ err] := rfl
    rw [h]
    simp [handleCount]
  · have h : (Slogger.Tracef Sprintf ⟨⟨thresholdHandler slog.LevelDebug err⟩, skip⟩ format
        args stack w).events = w.events ++ [Event.handle
          ⟨time.Now w, slog.LevelDebug, Sprintf format args,
            runtime.Callers skip (.sloggerLog :: .sloggerMethod "Tracef" :: stack)⟩ err] := rfl
    rw [h]
    simp [handleCount]

/-- For the ten methods other than `Trace` and `Tracef`, a call whose severity
is below the threshold of the backend changes nothing: `Handle` is not invoked. -/
theorem invoke_below_threshold (T : Level) (err : Option String) (skip : Int) (c : Call)
    (stack : List Frame) (w : World) (hnt : c.isTrace = false) (hlt : c.severity < T) :
    Slogger.invoke Sprintf ⟨⟨thresholdHandler T err⟩, skip⟩ c stack w = w := by
  rw [Slogger.invoke_eq_log, hnt]
  apply Slogger.log_disabled
  simp [slog.Logger.Enabled, thresholdHandler, hlt]

/-- C5 (fails on the code). After `init`, `SetDefault` of a `Logger`
implementation that is not the adapter panics in `atomic.Value.Store`, as does
`SetDefault` of a `Slogger` struct value: the holder already contains a
`*Slogger`. A `*Slogger` is stored as it is. -/
theorem SetDefault_custom_panics (b : slog.Logger) (now typ inst addr : Nat) (s : Slogger) :
    andThen (init (World.start b now)) (SetDefault (.custom typ inst)) =
        .error .storeInconsistentType ∧
      andThen (init (World.start b now)) (SetDefault (.slogger s)) =
        .error .storeInconsistentType ∧
      andThen (init (World.start b now)) (SetDefault (.sloggerPtr addr s)) =
        .ok { World.start b now with
              defaultLogger := { stored := some (.sloggerPtr addr s) }, nextAddr := 2 } := by
  refine ⟨rfl, rfl, rfl⟩

/-- C6. Each package-level function does what the same-named method of the
currently installed default logger does with the same arguments; and from
process start on a recording backend, `Infof("x=%d", 5)` produces exactly one
record, with severity Info and message `x=5`, and `Warn("a", "b")` exactly one
record, with severity Warn and message `ab`. -/
theorem pkg_functions_delegate (c : Call) (stack : List Frame) (w : World) (now pc : Nat) :
    pkgInvoke Sprintf c stack w = delegateSpec Sprintf c stack w ∧
      pkgInvoke Sprintf c stack w =
        (Default w).invoke Sprintf c (Frame.pkgFunc c.name :: stack) w ∧
      eventsOf (andThen (init (World.start recorder now))
          (Infof sprintfModel "x=%d" [.int 5] [.user pc])) =
        some [Event.handle ⟨now, slog.LevelInfo, "x=5", some (.user pc)⟩ none] ∧
      eventsOf (andThen (init (World.start recorder now))
          (Warn sprintfModel [.str "a", .str "b"] [.user pc])) =
        some [Event.handle ⟨now, slog.LevelWarn, "ab", some (.user pc)⟩ none] := by
  refine ⟨?_, ?_, rfl, rfl⟩
  · cases c <;> simp only [pkgInvoke, delegateSpec, Trace, Tracef, Debug, Debugf, Info, Infof,
      Warn, Warnf, Error, Errorf, Fatal, Fatalf, Default, AtomicValue.Load, Call.name] <;>
      cases w.defaultLogger.stored <;> rfl
  · cases c <;> rfl

/-- C7. `Slogger.log`, and with it each of the twelve methods, returns normally
whatever the handler's `Handle` returns, and two backends that differ only in
the results of `Handle` (one failing, one succeeding) leave the caller with the
same outcome: the error is discarded. -/
theorem log_discards_handler_error (enabled : Level → Bool)
    (handle1 handle2 : Record → Option String) (skip : Int) (level : Level) (line : String)
    (c : Call) (addr : Nat) (stack : List Frame) (w : World) :
    (Slogger.log ⟨⟨⟨enabled, handle1⟩⟩, skip⟩ level line stack w).forgetErr =
        (Slogger.log ⟨⟨⟨enabled, handle2⟩⟩, skip⟩ level line stack w).forgetErr ∧
      (Slogger.invoke Sprintf ⟨⟨⟨enabled, handle1⟩⟩, skip⟩ c stack w).forgetErr =
        (Slogger.invoke Sprintf ⟨⟨⟨enabled, handle2⟩⟩, skip⟩ c stack w).forgetErr ∧
      Logger.invoke Sprintf (.sloggerPtr addr ⟨⟨⟨enabled, handle1⟩⟩, skip⟩) c stack w =
        .ok (Slogger.invoke Sprintf ⟨⟨⟨enabled, handle1⟩⟩, skip⟩ c stack w) ∧
      Logger.invoke Sprintf (.slogger ⟨⟨⟨enabled, handle1⟩⟩, skip⟩) c stack w =
        .ok (Slogger.invoke Sprintf ⟨⟨⟨enabled, handle1⟩⟩, skip⟩ c stack w) := by
  have hlog : ∀ (lv : Level) (ln : String) (st : List Frame),
      (Slogger.log ⟨⟨⟨enabled, handle1⟩⟩, skip⟩ lv ln st w).forgetErr =
        (Slogger.log ⟨⟨⟨enabled, handle2⟩⟩, skip⟩ lv ln st w).forgetErr := by
    intro lv ln st
    cases hen : enabled lv <;>
      simp [Slogger.log, slog.Logger.Enabled, slog.Logger.Handler, World.forgetErr,
        Event.forgetErr, hen, time.Now]
  refine ⟨hlog _ _ _, ?_, rfl, rfl⟩
  rw [Slogger.invoke_eq_log, Slogger.invoke_eq_log]
  exact hlog _ _ _

/-- C8. The six severities are strictly ordered, with `LevelTrace` four below
`slog.LevelDebug` at -8 and `LevelFatal` four above `slog.LevelError` at 12. -/
theorem levels_strictly_ordered :
    LevelTrace < slog.LevelDebug ∧ slog.LevelDebug < slog.LevelInfo ∧
      slog.LevelInfo < slog.LevelWarn ∧ slog.LevelWarn < slog.LevelError ∧
      slog.LevelError < LevelFatal ∧
      LevelTrace = slog.LevelDebug - 4 ∧ LevelTrace = -8 ∧
      LevelFatal = slog.LevelError + 4 ∧ LevelFatal = 12 := by
  decide

/-- C9. From a process whose holder is still empty, `init` installs a `*Slogger`
with skip count 4 that wraps `slog.Default()`; `New()` returns a `*Slogger` with
skip count 3 that wraps `slog.Default()`; the first skip count is one greater
than the second. -/
theorem init_skip_and_New_skip (w0 w : World) (hempty : w0.defaultLogger.stored = none) :
    (∃ w1, init w0 = .ok w1 ∧
        w1.defaultLogger.Load =
          some (.sloggerPtr w0.nextAddr { logger := slog.Default w0, skip := 4 }) ∧
        w1.defaultLogger.Load.bind Logger.skip? = some 4) ∧
      (New w).1 = .sloggerPtr w.nextAddr { logger := slog.Default w, skip := 3 } ∧
      (New w).1.skip? = some 3 ∧
      ((4 : Int) = 3 + 1) := by
  have hinit : init w0 = .ok { w0 with
      defaultLogger :=
        { stored := some (.sloggerPtr w0.nextAddr { logger := slog.Default w0, skip := 4 }) },
      nextAddr := w0.nextAddr + 1 } := by
    simp [init, AtomicValue.Store, Logger.dynType, hempty]
  exact ⟨⟨_, hinit, rfl, rfl⟩, rfl, rfl, by decide⟩

/-- C9, at process start on the recording backend. -/
theorem init_skip_and_New_skip_witness :
    (World.start recorder 0).defaultLogger.stored = none ∧
      ((∃ w1, init (World.start recorder 0) = .ok w1 ∧
          w1.defaultLogger.Load = some (.sloggerPtr (World.start recorder 0).nextAddr
            { logger := slog.Default (World.start recorder 0), skip := 4 }) ∧
          w1.defaultLogger.Load.bind Logger.skip? = some 4) ∧
        (New (World.start recorder 0)).1 = .sloggerPtr (World.start recorder 0).nextAddr
          { logger := slog.Default (World.start recorder 0), skip := 3 } ∧
        (New (World.start recorder 0)).1.skip? = some 3 ∧
        ((4 : Int) = 3 + 1)) :=
  ⟨rfl, init_skip_and_New_skip (World.start recorder 0) (World.start recorder 0) rfl⟩

/-- C10. For each of the ten methods `Debug`, `Debugf`, ..., `Fatal`, `Fatalf`
and every backend on which the severity of the method is enabled, the call hands
exactly one record to the handler, with the current time, the severity of the
method, the message and the program counter captured with the skip count of the
logger; and the call, `Fatal` and `Fatalf` included, returns normally. -/
theorem enabled_call_emits_one_record (l : Slogger) (c : Call) (addr : Nat)
    (stack : List Frame) (w : World) (hnt : c.isTrace = false)
    (hen : l.logger.Enabled c.severity = true) :
    l.invoke Sprintf c stack w =
        { w with events := w.events ++
            [Event.handle (recordOf Sprintf l c c.severity stack w)
              (l.logger.Handler.Handle (recordOf Sprintf l c c.severity stack w))] } ∧
      Logger.invoke Sprintf (.sloggerPtr addr l) c stack w =
        .ok { w with events := w.events ++
            [Event.handle (recordOf Sprintf l c c.severity stack w)
              (l.logger.Handler.Handle (recordOf Sprintf l c c.severity stack w))] } := by
  have h : l.invoke Sprintf c stack w =
      { w with events := w.events ++
          [Event.handle (recordOf Sprintf l c c.severity stack w)
            (l.logger.Handler.Handle (recordOf Sprintf l c c.severity stack w))] } := by
    rw [Slogger.invoke_eq_log, hnt]
    simp only [Bool.false_eq_true, if_false]
    rw [Slogger.log_enabled _ _ _ _ _ hen]
    rfl
  refine ⟨h, ?_⟩
  simp only [Logger.invoke]
  rw [h]

/-- C10, at `Fatal("boom")` on the recording backend: one record at `LevelFatal`
(12), and the call returns. -/
theorem enabled_call_emits_one_record_witness :
    (Call.Fatal [.str "boom"]).isTrace = false ∧
      (Slogger.mk recorder 3).logger.Enabled (Call.Fatal [.str "boom"]).severity = true ∧
      (Slogger.invoke sprintfModel ⟨recorder, 3⟩ (.Fatal [.str "boom"]) [.user 7]
          (World.start recorder 5)).events =
        [Event.handle ⟨5, 12, "boom", some (.user 7)⟩ none] ∧
      eventsOf (Logger.invoke sprintfModel (.sloggerPtr 1 ⟨recorder, 3⟩)
          (.Fatal [.str "boom"]) [.user 7] (World.start recorder 5)) =
        some [Event.handle ⟨5, 12, "boom", some (.user 7)⟩ none] := by
  have h := enabled_call_emits_one_record sprintfModel ⟨recorder, 3⟩ (.Fatal [.str "boom"]) 1
    [.user 7] (World.start recorder 5) rfl rfl
  refine ⟨rfl, rfl, ?_, ?_⟩
  · rw [h.1]
    rfl
  · rw [h.2]
    rfl

end Log
